import Mathlib

/-!
Verification of the idevice repository's protocol clients against its
specification.  The Rust sources under `src/idevice/src` are shallowly
embedded: byte streams become `List Nat` (each element a byte value),
machine integers become `Nat` with explicit `% 2^w` where wrapping matters,
fallible operations return `Except` or `Option`, and the per-connection
mutable state of each client becomes explicit state passing.
-/

/-- Byte width constant: 2^64, the modulus of Rust's u64 arithmetic. -/
def U64 : Nat := 2 ^ 64

/-- Byte width constant: 2^32, the modulus of Rust's u32 arithmetic. -/
def U32 : Nat := 2 ^ 32

/-- Little-endian 8-byte encoding of a u64 value (Rust `u64::to_le_bytes`). -/
def u64le (n : Nat) : List Nat :=
  [n % 256, n / 2 ^ 8 % 256, n / 2 ^ 16 % 256, n / 2 ^ 24 % 256,
   n / 2 ^ 32 % 256, n / 2 ^ 40 % 256, n / 2 ^ 48 % 256, n / 2 ^ 56 % 256]

/-- Big-endian 8-byte encoding of a u64 value, as written by tokio's
`write_u64` (which is big-endian). -/
def u64be (n : Nat) : List Nat :=
  [n / 2 ^ 56 % 256, n / 2 ^ 48 % 256, n / 2 ^ 40 % 256, n / 2 ^ 32 % 256,
   n / 2 ^ 24 % 256, n / 2 ^ 16 % 256, n / 2 ^ 8 % 256, n % 256]

/-- Big-endian 4-byte encoding of a u32 value (Rust `u32::to_be_bytes`). -/
def u32be (n : Nat) : List Nat :=
  [n / 2 ^ 24 % 256, n / 2 ^ 16 % 256, n / 2 ^ 8 % 256, n % 256]

/-- Big-endian decoding of a byte list (Rust `from_be_bytes` on the
corresponding width when the list has that length). -/
def beToNat (l : List Nat) : Nat :=
  l.foldl (fun acc b => acc * 256 + b) 0

theorem u64be_length (n : Nat) : (u64be n).length = 8 := rfl

theorem u32be_length (n : Nat) : (u32be n).length = 4 := rfl

theorem beToNat_u64be {n : Nat} (h : n < U64) : beToNat (u64be n) = n := by
  simp only [u64be, beToNat, List.foldl]
  simp only [U64] at h
  omega

theorem beToNat_u32be {n : Nat} (h : n < U32) : beToNat (u32be n) = n := by
  simp only [u32be, beToNat, List.foldl]
  simp only [U32] at h
  omega

/-- Error type of the library (`src/idevice/src/error.rs`, together with the
variants used by `src/idevice/src/usbmuxd/mod.rs`). -/
inductive IdeviceError
  | AfcError (msg : String)
  | NotificationProxyError (msg : String)
  | WebInspectorError (msg : String)
  | FileRelayError (msg : String)
  | UnexpectedResponse
  | DeviceNotFound
  | UsbBadCommand
  | UsbBadDevice
  | UsbConnectionRefused
  | UsbBadVersion
  | Io
deriving DecidableEq, Repr

namespace Afc

/-- AFC operation codes (`src/idevice/src/afc/mod.rs`, `enum AfcOperations`). -/
inductive AfcOperations
  | Status | Data | ReadDir | ReadFile | WriteFile | WritePart
  | TruncFile | RemovePath | MakeDir | GetFileInfo | GetDeviceInfo
  | WriteFileAtomic | FileRefOpen | FileRefRead | FileRefWrite
  | FileRefSeek | FileRefTell | FileRefClose | FileRefSetSize
  | GetConnectionInfo | SetConnectionOptions | RenamePath
  | SetFSBlockSize | SetSocketBlockSize | FileRefLock | MakeLink
  | GetFileHash | SetModTime | GetFileHashWithRange
  | FileRefSetImmutableHint | GetSizeOfPathContents
  | RemovePathAndContents | DirectoryEnumeratorRefOpen
  | DirectoryEnumeratorRefOpenDirectory | DirectoryEnumeratorRefRead
  | DirectoryEnumeratorRefClose
deriving DecidableEq, Repr

/-- Numeric value of each operation code (the `#[repr(u64)]` discriminants). -/
def AfcOperations.code : AfcOperations → Nat
  | .Status => 0x01
  | .Data => 0x02
  | .ReadDir => 0x03
  | .ReadFile => 0x04
  | .WriteFile => 0x05
  | .WritePart => 0x06
  | .TruncFile => 0x07
  | .RemovePath => 0x08
  | .MakeDir => 0x09
  | .GetFileInfo => 0x0a
  | .GetDeviceInfo => 0x0b
  | .WriteFileAtomic => 0x0c
  | .FileRefOpen => 0x0d
  | .FileRefRead => 0x0e
  | .FileRefWrite => 0x0f
  | .FileRefSeek => 0x10
  | .FileRefTell => 0x11
  | .FileRefClose => 0x12
  | .FileRefSetSize => 0x13
  | .GetConnectionInfo => 0x14
  | .SetConnectionOptions => 0x15
  | .RenamePath => 0x16
  | .SetFSBlockSize => 0x17
  | .SetSocketBlockSize => 0x18
  | .FileRefLock => 0x19
  | .MakeLink => 0x1a
  | .GetFileHash => 0x1b
  | .SetModTime => 0x1c
  | .GetFileHashWithRange => 0x1d
  | .FileRefSetImmutableHint => 0x1e
  | .GetSizeOfPathContents => 0x1f
  | .RemovePathAndContents => 0x20
  | .DirectoryEnumeratorRefOpen => 0x21
  | .DirectoryEnumeratorRefOpenDirectory => 0x22
  | .DirectoryEnumeratorRefRead => 0x23
  | .DirectoryEnumeratorRefClose => 0x24

theorem AfcOperations.code_lt (op : AfcOperations) : op.code < U64 := by
  cases op <;> decide

/-- AFC packet header (`struct AfcPacketHeader`): four u64 fields; the fifth
on-wire word is the reserved field, written as zero and discarded on read. -/
structure AfcPacketHeader where
  entire_length : Nat
  this_length : Nat
  packet_num : Nat
  operation : Nat
deriving DecidableEq, Repr

/-- Constructor `AfcPacketHeader::new`: lengths are 40 (header) + payload
length, wrapping as Rust u64 addition would in release mode; `packet_num`
is hardcoded to 0. -/
def AfcPacketHeader.new (operation : AfcOperations) (dataLength : Nat) :
    AfcPacketHeader :=
  { entire_length := (40 + dataLength) % U64
    this_length := (40 + dataLength) % U64
    packet_num := 0
    operation := operation.code }

/-- Serialization `AfcPacketHeader::serialize`: five `write_u64` calls
(big-endian, tokio's convention), the last one writing the reserved 0. -/
def AfcPacketHeader.serializeBytes (h : AfcPacketHeader) : List Nat :=
  u64be h.entire_length ++ u64be h.this_length ++ u64be h.packet_num ++
    u64be h.operation ++ u64be 0

/-- Deserialization `AfcPacketHeader::deserialize`: five `read_u64` calls,
the last (the reserved word) discarded; fails on a short stream. -/
def AfcPacketHeader.deserializeBytes (bytes : List Nat) :
    Option AfcPacketHeader :=
  if 40 ≤ bytes.length then
    some { entire_length := beToNat (bytes.take 8)
           this_length := beToNat ((bytes.drop 8).take 8)
           packet_num := beToNat (((bytes.drop 8).drop 8).take 8)
           operation := beToNat ((((bytes.drop 8).drop 8).drop 8).take 8) }
  else none

/-- Per-connection state of `AfcClient`: the `packet_num` counter. -/
structure AfcClientState where
  packet_num : Nat
deriving DecidableEq, Repr

/-- Helper `AfcClient::send_packet`: builds a header via
`AfcPacketHeader::new` (whose `packet_num` field is always 0), writes header
then payload, and only afterwards increments the client's own counter,
which is never copied into any header. Returns the emitted header, the
emitted payload bytes, and the successor state. -/
def sendPacket (st : AfcClientState) (operation : AfcOperations)
    (data : List Nat) : AfcPacketHeader × List Nat × AfcClientState :=
  (AfcPacketHeader.new operation (data.length % U64), data,
   { packet_num := (st.packet_num + 1) % U64 })

/-- Helper `AfcClient::receive_response`: reads a header, then reads exactly
`entire_length - 40` bytes (u64 wrapping subtraction) and returns them as
the response data, never inspecting the operation field. The available
stream bytes model what the socket will deliver; a `read_exact` on more
bytes than available fails with an I/O error. -/
def receiveResponse (header : AfcPacketHeader) (stream : List Nat) :
    Except IdeviceError (List Nat) :=
  if (header.entire_length + U64 - 40) % U64 = 0 then Except.ok []
  else if (header.entire_length + U64 - 40) % U64 ≤ stream.length then
    Except.ok (stream.take ((header.entire_length + U64 - 40) % U64))
  else Except.error IdeviceError.Io

/-- Payload of the `FILE_REF_OPEN` request sent by `AfcClient::write_file`
(lines 285-289): a zeroed buffer of `path.len() + 1 + 8` bytes, the path
copied to the front, the write mode 3 as little-endian u64 at the end. -/
def writeFileOpenPayload (path : List Nat) : List Nat :=
  path ++ [0] ++ u64le 3

/-- Payload of the `FILE_REF_OPEN` request sent by `AfcClient::read_file`
(lines 235-237): the path bytes and a terminating NUL, with no mode field. -/
def readFileOpenPayload (path : List Nat) : List Nat :=
  path ++ [0]

/-- Layout stated by the spec for the `FILE_REF_OPEN` payload: the 8-byte
little-endian mode, then the path, then a single NUL. -/
def specOpenPayload (mode : Nat) (path : List Nat) : List Nat :=
  u64le mode ++ path ++ [0]

end Afc

/-- C1: the spec demands `FILE_REF_OPEN` payload `u64_le(mode) || path || 0x00`,
and the claim asserts `write_file` (mode 3) and `read_file` emit that layout.
Evaluating the code at path "a" (byte 0x61): `write_file` emits
`path || 0x00 || u64_le(3)` (mode last, not first) and `read_file` emits
`path || 0x00` with no mode at all — both differ from the layout the claim
states, confirming the divergence the spec's design notes flag as a known
source bug. -/
theorem afc_fileRefOpen_payload_layout :
    Afc.writeFileOpenPayload [0x61] = [0x61, 0, 3, 0, 0, 0, 0, 0, 0, 0]
    ∧ Afc.specOpenPayload 3 [0x61] = [3, 0, 0, 0, 0, 0, 0, 0, 0x61, 0]
    ∧ Afc.writeFileOpenPayload [0x61] ≠ Afc.specOpenPayload 3 [0x61]
    ∧ Afc.readFileOpenPayload [0x61] = [0x61, 0]
    ∧ Afc.readFileOpenPayload [0x61] ≠ Afc.specOpenPayload 1 [0x61] := by
  refine ⟨by decide, by decide, by decide, by decide, by decide⟩

/-- C2: the claim asserts the `packet_number` field of emitted request
headers strictly increases across consecutive sends. Evaluating two
consecutive `send_packet` calls from a fresh client: both emitted headers
carry `packet_num = 0` (the constructor hardcodes it), so the second is not
greater than the first; the client's internal counter does reach 2, but is
never stamped into any header. -/
theorem afc_packet_number_constant_zero :
    (Afc.sendPacket ⟨0⟩ Afc.AfcOperations.FileRefOpen [0x61, 0]).1.packet_num = 0
    ∧ ((Afc.sendPacket
        (Afc.sendPacket ⟨0⟩ Afc.AfcOperations.FileRefOpen [0x61, 0]).2.2
        Afc.AfcOperations.FileRefRead (u64le 1 ++ u64le 65536)).1.packet_num = 0)
    ∧ ¬ ((Afc.sendPacket ⟨0⟩ Afc.AfcOperations.FileRefOpen [0x61, 0]).1.packet_num <
        (Afc.sendPacket
          (Afc.sendPacket ⟨0⟩ Afc.AfcOperations.FileRefOpen [0x61, 0]).2.2
          Afc.AfcOperations.FileRefRead (u64le 1 ++ u64le 65536)).1.packet_num)
    ∧ (Afc.sendPacket
        (Afc.sendPacket ⟨0⟩ Afc.AfcOperations.FileRefOpen [0x61, 0]).2.2
        Afc.AfcOperations.FileRefRead (u64le 1 ++ u64le 65536)).2.2.packet_num = 2 := by
  refine ⟨by decide, by decide, by decide, by decide⟩

namespace Afc

/-- Requested chunk size of the read loop in `AfcClient::read_file`
(64 KiB). -/
def chunkSize : Nat := 65536

/-- Read loop of `AfcClient::read_file` (lines 255-272) over a scripted
sequence of response chunks: each iteration issues one `FILE_REF_READ`
request and consumes the next scripted chunk; the loop breaks on an empty
chunk or on a chunk shorter than the requested size, otherwise appends the
chunk and continues. Returns the accumulated file content and the number of
read requests issued. -/
def readLoop : List (List Nat) → List Nat × Nat
  | [] => ([], 0)
  | c :: rest =>
    if c.length = 0 then ([], 1)
    else if c.length < chunkSize then (c, 1)
    else (c ++ (readLoop rest).1, (readLoop rest).2 + 1)

/-- Modelled from the spec: the chunks the loop receives, namely the
scripted chunks up to and including the first one that is empty or shorter
than the requested chunk size. -/
def chunksReceived : List (List Nat) → List (List Nat)
  | [] => []
  | c :: rest => if c.length < chunkSize then [c] else c :: chunksReceived rest

/-- Scripted response sequence of the claim: chunk sizes 65536, 65536, 1000. -/
def demoScript : List (List Nat) :=
  [List.replicate 65536 0, List.replicate 65536 0, List.replicate 1000 0]

theorem readLoop_content (s : List (List Nat)) :
    (readLoop s).1 = (chunksReceived s).flatten := by
  induction s with
  | nil => rfl
  | cons c rest ih =>
    simp only [readLoop, chunksReceived]
    by_cases h0 : c.length = 0
    · have hc : c = [] := List.length_eq_zero.mp h0
      subst hc
      simp [chunkSize]
    · by_cases hshort : c.length < chunkSize
      · simp [h0, hshort]
      · simp [h0, hshort, ih]

theorem readLoop_count (s : List (List Nat)) :
    (readLoop s).2 = (chunksReceived s).length := by
  induction s with
  | nil => rfl
  | cons c rest ih =>
    simp only [readLoop, chunksReceived]
    by_cases h0 : c.length = 0
    · have hc : c = [] := List.length_eq_zero.mp h0
      subst hc
      simp [chunkSize]
    · by_cases hshort : c.length < chunkSize
      · simp [h0, hshort]
      · simp [h0, hshort, ih]

theorem readLoop_append_of_short {s : List (List Nat)} (e : List (List Nat))
    (h : ∃ c ∈ s, c.length < chunkSize) :
    readLoop (s ++ e) = readLoop s := by
  induction s with
  | nil => simp at h
  | cons c rest ih =>
    obtain ⟨c', hc', hlen⟩ := h
    simp only [List.cons_append, readLoop]
    by_cases h0 : c.length = 0
    · simp [h0]
    · by_cases hshort : c.length < chunkSize
      · simp [h0, hshort]
      · have hmem : c' ∈ rest := by
          rcases List.mem_cons.mp hc' with rfl | hm
          · exact absurd hlen hshort
          · exact hm
        rw [if_neg h0, if_neg hshort, if_neg h0, if_neg hshort]
        simp only [List.append_eq]
        rw [ih ⟨c', hmem, hlen⟩]

theorem readLoop_three (c1 c2 c3 : List Nat) (h1 : c1.length = chunkSize)
    (h2 : c2.length = chunkSize) (h3 : c3.length ≠ 0)
    (h4 : c3.length < chunkSize) :
    readLoop [c1, c2, c3] = (c1 ++ (c2 ++ c3), 3) := by
  simp only [readLoop]
  rw [if_neg (show ¬c1.length = 0 by rw [h1]; decide),
    if_neg (show ¬c1.length < chunkSize by rw [h1]; decide),
    if_neg (show ¬c2.length = 0 by rw [h2]; decide),
    if_neg (show ¬c2.length < chunkSize by rw [h2]; decide),
    if_neg h3, if_pos h4]

theorem readLoop_demo :
    readLoop demoScript =
      (List.replicate 65536 (0 : Nat) ++
        (List.replicate 65536 0 ++ List.replicate 1000 0), 3) :=
  readLoop_three (List.replicate 65536 0) (List.replicate 65536 0)
    (List.replicate 1000 0)
    (by simp only [List.length_replicate, chunkSize])
    (by simp only [List.length_replicate, chunkSize])
    (by simp only [List.length_replicate]; decide)
    (by simp only [List.length_replicate, chunkSize]; decide)

end Afc

/-- C4: the chunked read loop of `AfcClient::read_file` terminates exactly
when a scripted response chunk is empty or shorter than the 64 KiB request,
the returned content is the concatenation of all received chunks, and on
the scripted sizes [65536, 65536, 1000] the assembled content has length
2*65536 + 1000 after exactly three requests, with no further request issued
for any continuation of the script past the short chunk. -/
theorem afc_read_loop_termination :
    ∀ (script extra : List (List Nat)),
      (Afc.readLoop script).1 = (Afc.chunksReceived script).flatten
      ∧ (Afc.readLoop script).2 = (Afc.chunksReceived script).length
      ∧ ((∃ c ∈ script, c.length < Afc.chunkSize) →
          Afc.readLoop (script ++ extra) = Afc.readLoop script)
      ∧ (Afc.readLoop Afc.demoScript).1.length = 2 * 65536 + 1000
      ∧ (Afc.readLoop Afc.demoScript).2 = 3
      ∧ ((∃ c ∈ Afc.demoScript, c.length < Afc.chunkSize) →
          Afc.readLoop (Afc.demoScript ++ extra) = Afc.readLoop Afc.demoScript) := by
  intro script extra
  refine ⟨Afc.readLoop_content script, Afc.readLoop_count script,
    fun h => Afc.readLoop_append_of_short extra h, ?_, ?_,
    fun h => Afc.readLoop_append_of_short extra h⟩
  · rw [Afc.readLoop_demo]
    simp only [List.length_append, List.length_replicate]
  · rw [Afc.readLoop_demo]

/-- C4 witness: the theorem applied to the scripted sequence of the claim,
with the short-chunk hypothesis discharged by the 1000-byte chunk. -/
theorem afc_read_loop_termination_witness :
    Afc.readLoop (Afc.demoScript ++ [[42]]) = Afc.readLoop Afc.demoScript
    ∧ (Afc.readLoop Afc.demoScript).1.length = 2 * 65536 + 1000 := by
  have hshort : ∃ c ∈ Afc.demoScript, c.length < Afc.chunkSize := by
    refine ⟨List.replicate 1000 0, ?_,
      by simp only [List.length_replicate, Afc.chunkSize]; decide⟩
    simp only [Afc.demoScript]
    exact List.mem_cons_of_mem _ (List.mem_cons_of_mem _ (List.mem_cons_self _ _))
  exact ⟨(afc_read_loop_termination Afc.demoScript [[42]]).2.2.2.2.2 hshort,
    (afc_read_loop_termination Afc.demoScript [[42]]).2.2.2.1⟩

/-- C3 counterexample: a reply whose operation field is STATUS (1), with
entire_length 48 and an 8-byte little-endian payload carrying the nonzero
error code 8, is returned by `receive_response` as ordinary `Ok` data; the
operation field is never inspected and no `AfcError` is produced, contrary
to the claim. -/
theorem afc_status_reply_returned_as_data :
    Afc.receiveResponse ⟨48, 48, 0, 1⟩ (u64le 8) =
      Except.ok [8, 0, 0, 0, 0, 0, 0, 0] := by
  rfl

/-- C3 amended: `AfcClient::receive_response` returns the payload of every
reply as ordinary response data, regardless of the reply's operation field;
in particular STATUS replies are not decoded into error codes and no
non-zero code is mapped to an `AfcError`. -/
theorem afc_receive_response_ignores_operation :
    ∀ (header : Afc.AfcPacketHeader) (stream : List Nat),
      40 ≤ header.entire_length → header.entire_length < U64 →
      header.entire_length - 40 ≤ stream.length →
      Afc.receiveResponse header stream =
        Except.ok (stream.take (header.entire_length - 40)) := by
  intro h s h40 hlt hle
  have hU : U64 = 18446744073709551616 := by decide
  have hmod : (h.entire_length + U64 - 40) % U64 = h.entire_length - 40 := by
    rw [hU] at hlt ⊢
    omega
  simp only [Afc.receiveResponse, hmod]
  by_cases h0 : h.entire_length - 40 = 0
  · simp [h0]
  · rw [if_neg h0, if_pos hle]

/-- C3 witness: the amended theorem applied to a DATA reply of length 50
over a 12-byte stream. -/
theorem afc_receive_response_ignores_operation_witness :
    Afc.receiveResponse ⟨50, 50, 0, 2⟩ [1, 2, 3, 4, 5, 6, 7, 8, 9, 10, 11, 12] =
      Except.ok [1, 2, 3, 4, 5, 6, 7, 8, 9, 10] := by
  have h := afc_receive_response_ignores_operation ⟨50, 50, 0, 2⟩
    [1, 2, 3, 4, 5, 6, 7, 8, 9, 10, 11, 12] (by decide) (by decide) (by decide)
  have h2 : List.take (50 - 40) [1, 2, 3, 4, 5, 6, 7, 8, 9, 10, 11, 12] =
      [1, 2, 3, 4, 5, 6, 7, 8, 9, 10] := by decide
  rw [h2] at h
  exact h

namespace Afc

theorem deserialize_five (a b c d e : Nat) (ha : a < U64) (hb : b < U64)
    (hc : c < U64) (hd : d < U64) :
    AfcPacketHeader.deserializeBytes
        (u64be a ++ (u64be b ++ (u64be c ++ (u64be d ++ u64be e)))) =
      some ⟨a, b, c, d⟩ := by
  unfold AfcPacketHeader.deserializeBytes
  rw [if_pos
    (by simp only [List.length_append, u64be_length]; omega)]
  rw [List.take_left' (u64be_length a), List.drop_left' (u64be_length a),
    List.take_left' (u64be_length b), List.drop_left' (u64be_length b),
    List.take_left' (u64be_length c), List.drop_left' (u64be_length c),
    List.take_left' (u64be_length d),
    beToNat_u64be ha, beToNat_u64be hb, beToNat_u64be hc, beToNat_u64be hd]

end Afc

/-- C7: for every operation code and payload length (such that 40 + length
fits in a u64), serializing the header built by `AfcPacketHeader::new` and
deserializing the resulting 40 bytes yields a header with the same field
values, with `entire_length = this_length = 40 + payload_len`; the on-wire
reserved word is written as zero (the serialization ends in `u64be 0`,
eight zero bytes). -/
theorem afc_header_round_trip :
    ∀ (op : Afc.AfcOperations) (n : Nat), 40 + n < U64 →
      Afc.AfcPacketHeader.deserializeBytes
          (Afc.AfcPacketHeader.new op n).serializeBytes =
        some (Afc.AfcPacketHeader.new op n)
      ∧ (Afc.AfcPacketHeader.new op n).entire_length = 40 + n
      ∧ (Afc.AfcPacketHeader.new op n).this_length = 40 + n
      ∧ (Afc.AfcPacketHeader.new op n).serializeBytes =
          u64be (40 + n) ++ u64be (40 + n) ++ u64be 0 ++ u64be op.code ++ u64be 0
      ∧ u64be 0 = List.replicate 8 0 := by
  intro op n h
  have hmod : (40 + n) % U64 = 40 + n := Nat.mod_eq_of_lt h
  have hser : (Afc.AfcPacketHeader.new op n).serializeBytes =
      u64be (40 + n) ++ (u64be (40 + n) ++ (u64be 0 ++ (u64be op.code ++ u64be 0))) := by
    simp only [Afc.AfcPacketHeader.serializeBytes, Afc.AfcPacketHeader.new,
      hmod, List.append_assoc]
  refine ⟨?_, by simp [Afc.AfcPacketHeader.new, hmod],
    by simp [Afc.AfcPacketHeader.new, hmod], ?_, rfl⟩
  · rw [hser, Afc.deserialize_five (40 + n) (40 + n) 0 op.code 0 h h
      (by decide) (Afc.AfcOperations.code_lt op)]
    simp [Afc.AfcPacketHeader.new, hmod]
  · rw [hser]
    simp [List.append_assoc]

/-- C7 witness: the round-trip theorem applied to `FILE_REF_OPEN` with a
5-byte payload. -/
theorem afc_header_round_trip_witness :
    Afc.AfcPacketHeader.deserializeBytes
        (Afc.AfcPacketHeader.new Afc.AfcOperations.FileRefOpen 5).serializeBytes =
      some (Afc.AfcPacketHeader.new Afc.AfcOperations.FileRefOpen 5)
    ∧ (Afc.AfcPacketHeader.new Afc.AfcOperations.FileRefOpen 5).entire_length =
        40 + 5 := by
  have h := afc_header_round_trip Afc.AfcOperations.FileRefOpen 5 (by decide)
  exact ⟨h.1, h.2.1⟩

instance exceptDecEq {ε α : Type} [DecidableEq ε] [DecidableEq α] :
    DecidableEq (Except ε α) := fun x y =>
  match x, y with
  | .ok a, .ok b =>
    match decEq a b with
    | isTrue h => isTrue (h ▸ rfl)
    | isFalse h => isFalse (fun hc => h (Except.ok.inj hc))
  | .ok _, .error _ => isFalse (fun hc => Except.noConfusion hc)
  | .error _, .ok _ => isFalse (fun hc => Except.noConfusion hc)
  | .error e, .error f =>
    match decEq e f with
    | isTrue h => isTrue (h ▸ rfl)
    | isFalse h => isFalse (fun hc => h (Except.error.inj hc))

namespace Usbmuxd

/-- IP addresses as built by the device-list parser
(`src/idevice/src/usbmuxd/mod.rs`): IPv4 from four octets, IPv6 from eight
16-bit groups. -/
inductive IpAddr
  | V4 (a b c d : Nat)
  | V6 (a b c d e f g h : Nat)
deriving DecidableEq, Repr

/-- Connection kind of a device (`enum Connection`). -/
inductive Connection
  | Usb
  | Network (addr : IpAddr)
  | Unknown (s : String)
deriving DecidableEq, Repr

/-- One entry of a `ListDevices` response as deserialized into
`des::ListDevicesResponse`: the properties the parser consumes. -/
structure DeviceEntry where
  connection_type : String
  network_address : Option (List Nat)
  serial_number : String
  device_id : Nat
deriving DecidableEq, Repr

/-- Parsed device record (`struct UsbmuxdDevice`). -/
structure UsbmuxdDevice where
  connection_type : Connection
  udid : String
  device_id : Nat
deriving DecidableEq, Repr

/-- Rust `u16::from_be_bytes` of two bytes. -/
def u16beVal (b0 b1 : Nat) : Nat := b0 * 256 + b1

/-- Uppercase hexadecimal digit for a value below 16
(`'0'..'9'` then `'A'..'F'`). -/
def hexDigit (n : Nat) : Char :=
  if n < 10 then Char.ofNat (48 + n) else Char.ofNat (55 + n)

/-- Two-digit uppercase hexadecimal form of a byte, as the Rust format
directive `02X` renders a u8. -/
def hexByte (n : Nat) : String :=
  String.mk [hexDigit (n / 16 % 16), hexDigit (n % 16)]

/-- Parsing of a `Properties.NetworkAddress` blob in
`UsbmuxdConnection::get_devices` (lines 131-165): blobs shorter than
8 bytes are rejected; family tag 0x02 reads an IPv4 address from bytes
4..8; tag 0x1E requires 24 bytes and reads an IPv6 address from big-endian
byte pairs at offsets 8..24; any other tag yields an `Unknown` connection
naming the tag in hex. Indexing is modelled with `getD`; every index is
guarded by the length checks the code performs. -/
def parseNetworkAddress (addr : List Nat) : Except IdeviceError Connection :=
  if addr.length < 8 then Except.error IdeviceError.UnexpectedResponse
  else if addr.getD 0 0 = 2 then
    Except.ok (Connection.Network (IpAddr.V4
      (addr.getD 4 0) (addr.getD 5 0) (addr.getD 6 0) (addr.getD 7 0)))
  else if addr.getD 0 0 = 30 then
    if addr.length < 24 then Except.error IdeviceError.UnexpectedResponse
    else Except.ok (Connection.Network (IpAddr.V6
      (u16beVal (addr.getD 8 0) (addr.getD 9 0))
      (u16beVal (addr.getD 10 0) (addr.getD 11 0))
      (u16beVal (addr.getD 12 0) (addr.getD 13 0))
      (u16beVal (addr.getD 14 0) (addr.getD 15 0))
      (u16beVal (addr.getD 16 0) (addr.getD 17 0))
      (u16beVal (addr.getD 18 0) (addr.getD 19 0))
      (u16beVal (addr.getD 20 0) (addr.getD 21 0))
      (u16beVal (addr.getD 22 0) (addr.getD 23 0))))
  else Except.ok (Connection.Unknown ("Network " ++ hexByte (addr.getD 0 0)))

/-- Connection-type dispatch of `get_devices`: "Network" entries require a
`NetworkAddress` blob (missing one is an `UnexpectedResponse`), "USB" maps
to `Usb`, anything else to `Unknown` of the raw string. -/
def parseConnectionType (d : DeviceEntry) : Except IdeviceError Connection :=
  if d.connection_type = "Network" then
    match d.network_address with
    | some addr => parseNetworkAddress addr
    | none => Except.error IdeviceError.UnexpectedResponse
  else if d.connection_type = "USB" then Except.ok Connection.Usb
  else Except.ok (Connection.Unknown d.connection_type)

/-- Device-list assembly of `UsbmuxdConnection::get_devices`: entries are
processed in order; the first parse failure makes the whole call return
that error (the `return Err(...)` inside the loop), so no partial list is
ever produced. -/
def getDevices : List DeviceEntry → Except IdeviceError (List UsbmuxdDevice)
  | [] => Except.ok []
  | d :: rest =>
    match parseConnectionType d with
    | Except.error e => Except.error e
    | Except.ok c =>
      match getDevices rest with
      | Except.error e => Except.error e
      | Except.ok tail =>
        Except.ok ({ connection_type := c, udid := d.serial_number, device_id := d.device_id } :: tail)

/-- Rust `u16::to_be` on the little-endian hosts this library targets:
a byte swap of the 16-bit value. -/
def u16ToBe (n : Nat) : Nat := n % 256 * 256 + n / 256 % 256

/-- Fields of the `Connect` request plist built by
`UsbmuxdConnection::connect_to_device` (lines 226-231): the `PortNumber`
entry receives `port.to_be()`. -/
structure ConnectRequest where
  message_type : String
  device_id : Nat
  port_number : Nat
deriving DecidableEq, Repr

def connectRequest (deviceId : Nat) (port : Nat) : ConnectRequest :=
  { message_type := "Connect", device_id := deviceId,
    port_number := u16ToBe port }

end Usbmuxd

/-- C5: `get_devices` parses a Network entry's `NetworkAddress` blob by its
first byte — blobs shorter than 8 bytes fail with `UnexpectedResponse`;
tag 0x02 yields an IPv4 address from bytes 4..8; tag 0x1E with fewer than
24 bytes fails with `UnexpectedResponse`, with at least 24 yields an IPv6
address from big-endian byte pairs at offsets 8..24; any other tag yields
`Unknown ("Network <hex>")`; and a parse failure of any entry makes the
whole call fail, returning no partial device list. -/
theorem usbmuxd_network_address_parsing :
    ∀ (addr : List Nat) (d : Usbmuxd.DeviceEntry)
      (pre post : List Usbmuxd.DeviceEntry) (e : IdeviceError),
      (addr.length < 8 →
        Usbmuxd.parseNetworkAddress addr =
          Except.error IdeviceError.UnexpectedResponse)
      ∧ (8 ≤ addr.length → addr.getD 0 0 = 2 →
        Usbmuxd.parseNetworkAddress addr =
          Except.ok (Usbmuxd.Connection.Network (Usbmuxd.IpAddr.V4
            (addr.getD 4 0) (addr.getD 5 0) (addr.getD 6 0) (addr.getD 7 0))))
      ∧ (8 ≤ addr.length → addr.getD 0 0 = 30 → addr.length < 24 →
        Usbmuxd.parseNetworkAddress addr =
          Except.error IdeviceError.UnexpectedResponse)
      ∧ (24 ≤ addr.length → addr.getD 0 0 = 30 →
        Usbmuxd.parseNetworkAddress addr =
          Except.ok (Usbmuxd.Connection.Network (Usbmuxd.IpAddr.V6
            (Usbmuxd.u16beVal (addr.getD 8 0) (addr.getD 9 0))
            (Usbmuxd.u16beVal (addr.getD 10 0) (addr.getD 11 0))
            (Usbmuxd.u16beVal (addr.getD 12 0) (addr.getD 13 0))
            (Usbmuxd.u16beVal (addr.getD 14 0) (addr.getD 15 0))
            (Usbmuxd.u16beVal (addr.getD 16 0) (addr.getD 17 0))
            (Usbmuxd.u16beVal (addr.getD 18 0) (addr.getD 19 0))
            (Usbmuxd.u16beVal (addr.getD 20 0) (addr.getD 21 0))
            (Usbmuxd.u16beVal (addr.getD 22 0) (addr.getD 23 0)))))
      ∧ (8 ≤ addr.length → addr.getD 0 0 ≠ 2 → addr.getD 0 0 ≠ 30 →
        Usbmuxd.parseNetworkAddress addr =
          Except.ok (Usbmuxd.Connection.Unknown
            ("Network " ++ Usbmuxd.hexByte (addr.getD 0 0))))
      ∧ (Usbmuxd.parseConnectionType d = Except.error e →
        ∃ e2, Usbmuxd.getDevices (pre ++ d :: post) = Except.error e2) := by
  intro addr d pre post e
  refine ⟨?_, ?_, ?_, ?_, ?_, ?_⟩
  · intro h
    simp only [Usbmuxd.parseNetworkAddress]
    rw [if_pos h]
  · intro h8 h2
    simp only [Usbmuxd.parseNetworkAddress]
    rw [if_neg (by omega), if_pos h2]
  · intro h8 h30 h24
    simp only [Usbmuxd.parseNetworkAddress]
    rw [if_neg (by omega), if_neg (by rw [h30]; decide), if_pos h30, if_pos h24]
  · intro h24 h30
    simp only [Usbmuxd.parseNetworkAddress]
    rw [if_neg (by omega), if_neg (by rw [h30]; decide), if_pos h30,
      if_neg (by omega)]
  · intro h8 hn2 hn30
    simp only [Usbmuxd.parseNetworkAddress]
    rw [if_neg (by omega), if_neg hn2, if_neg hn30]
  · intro hpe
    induction pre with
    | nil =>
      refine ⟨e, ?_⟩
      simp only [List.nil_append, Usbmuxd.getDevices, hpe]
    | cons p ps ih =>
      obtain ⟨e2, he2⟩ := ih
      cases hp : Usbmuxd.parseConnectionType p with
      | error e3 =>
        refine ⟨e3, ?_⟩
        simp only [List.cons_append, Usbmuxd.getDevices, hp]
      | ok c =>
        refine ⟨e2, ?_⟩
        simp only [List.cons_append, Usbmuxd.getDevices, hp, List.append_eq]
        rw [he2]

/-- C5 witness: the theorem applied to a concrete IPv4 blob, a truncated
blob, an unknown-family blob, and a one-entry device list whose blob is
truncated. -/
theorem usbmuxd_network_address_parsing_witness :
    Usbmuxd.parseNetworkAddress [2, 0, 0, 0, 10, 0, 0, 5] =
      Except.ok (Usbmuxd.Connection.Network (Usbmuxd.IpAddr.V4 10 0 0 5))
    ∧ Usbmuxd.parseNetworkAddress [30, 0, 0] =
      Except.error IdeviceError.UnexpectedResponse
    ∧ Usbmuxd.parseNetworkAddress [7, 0, 0, 0, 0, 0, 0, 0] =
      Except.ok (Usbmuxd.Connection.Unknown ("Network " ++ Usbmuxd.hexByte 7))
    ∧ ∃ e2,
        Usbmuxd.getDevices [{ connection_type := "Network", network_address := some [1, 2, 3], serial_number := "u", device_id := 1 }] = Except.error e2 := by
  have dummy : Usbmuxd.DeviceEntry :=
    { connection_type := "", network_address := none, serial_number := "", device_id := 0 }
  refine ⟨?_, ?_, ?_, ?_⟩
  · have h := (usbmuxd_network_address_parsing [2, 0, 0, 0, 10, 0, 0, 5]
      dummy [] [] IdeviceError.UnexpectedResponse).2.1 (by decide) (by decide)
    have e4 : ([2, 0, 0, 0, 10, 0, 0, 5] : List Nat).getD 4 0 = 10 := by decide
    have e5 : ([2, 0, 0, 0, 10, 0, 0, 5] : List Nat).getD 5 0 = 0 := by decide
    have e6 : ([2, 0, 0, 0, 10, 0, 0, 5] : List Nat).getD 6 0 = 0 := by decide
    have e7 : ([2, 0, 0, 0, 10, 0, 0, 5] : List Nat).getD 7 0 = 5 := by decide
    rw [e4, e5, e6, e7] at h
    exact h
  · exact (usbmuxd_network_address_parsing [30, 0, 0] dummy [] []
      IdeviceError.UnexpectedResponse).1 (by decide)
  · have h := (usbmuxd_network_address_parsing [7, 0, 0, 0, 0, 0, 0, 0]
      dummy [] [] IdeviceError.UnexpectedResponse).2.2.2.2.1
      (by decide) (by decide) (by decide)
    have e0 : ([7, 0, 0, 0, 0, 0, 0, 0] : List Nat).getD 0 0 = 7 := by decide
    rw [e0] at h
    exact h
  · exact (usbmuxd_network_address_parsing [1, 2, 3]
      { connection_type := "Network", network_address := some [1, 2, 3], serial_number := "u", device_id := 1 } [] []
      IdeviceError.UnexpectedResponse).2.2.2.2.2 (by decide)

/-- C6: the `Connect` request built by `connect_to_device` carries the
byte-swapped (network byte order) port in `PortNumber`: for every 16-bit
port the field equals `port % 256 * 256 + port / 256`, and for
(device_id 42, port 0x1234) it equals 0x3412. -/
theorem usbmuxd_connect_port_byte_order :
    ∀ (deviceId port : Nat), port < 65536 →
      (Usbmuxd.connectRequest deviceId port).port_number =
        port % 256 * 256 + port / 256
      ∧ (Usbmuxd.connectRequest 42 0x1234).port_number = 0x3412
      ∧ (Usbmuxd.connectRequest deviceId port).message_type = "Connect"
      ∧ (Usbmuxd.connectRequest deviceId port).device_id = deviceId := by
  intro did port h
  refine ⟨?_, by decide, rfl, rfl⟩
  simp only [Usbmuxd.connectRequest, Usbmuxd.u16ToBe]
  have hd : port / 256 % 256 = port / 256 := Nat.mod_eq_of_lt (by omega)
  rw [hd]

/-- C6 witness: the theorem applied at device 42, port 0x1234. -/
theorem usbmuxd_connect_port_byte_order_witness :
    (Usbmuxd.connectRequest 42 0x1234).port_number = 0x3412 :=
  (usbmuxd_connect_port_byte_order 42 0x1234 (by decide)).2.1

namespace NotificationProxy

/-- Listener-related state of one `NotificationProxyClient` connection
(`src/idevice/src/notification_proxy/mod.rs`): whether the client holds the
channel receiver and sender (`notification_rx` / `notification_tx`), plus
the number of spawned background reader tasks of the connection that are
still running. -/
structure NpState where
  rx_some : Bool
  tx_some : Bool
  readers : Nat
deriving DecidableEq, Repr

/-- State right after `connect`: no channel handles, no reader task. -/
def npInit : NpState := { rx_some := false, tx_some := false, readers := 0 }

/-- `start_listening` (lines 145-196): errors with "Already listening for
notifications" when `notification_rx` is already set, spawning nothing;
otherwise stores the channel handles and spawns exactly one reader task. -/
def startListening (s : NpState) : Except IdeviceError NpState :=
  if s.rx_some then
    Except.error
      (IdeviceError.NotificationProxyError "Already listening for notifications")
  else
    Except.ok { rx_some := true, tx_some := true, readers := s.readers + 1 }

/-- `stop_listening` (lines 199-202): sets both channel handles to `None`
and nothing else — no task handle is stored and the spawned reader is not
aborted, so the reader count is unchanged. -/
def stopListening (s : NpState) : NpState :=
  { s with rx_some := false, tx_some := false }

/-- Events observable on one connection: the two public listener calls and
the spontaneous exit of a reader task, which in the source happens only
when its socket read fails or its channel send fails (the `break`s of the
spawned loop). -/
inductive NpEvent
  | start
  | stop
  | readerExit
deriving DecidableEq, Repr

def npStep (s : NpState) (e : NpEvent) : NpState :=
  match e with
  | .start =>
    match startListening s with
    | .ok s2 => s2
    | .error _ => s
  | .stop => stopListening s
  | .readerExit => { s with readers := s.readers - 1 }

def npRun (s : NpState) (events : List NpEvent) : NpState :=
  events.foldl npStep s

end NotificationProxy

/-- C8 counterexample: starting a listener and stopping it leaves the
background reader running (1 reader, where the claim demands 0 after
`stop_listening`), and the sequence start, stop, start leaves two readers
running, which the claim says can never happen. No reader-exit event
occurs in this trace because no socket read or channel send fails in it. -/
theorem np_stop_listening_leaves_reader :
    (NotificationProxy.npRun NotificationProxy.npInit
      [NotificationProxy.NpEvent.start, NotificationProxy.NpEvent.stop]).readers = 1
    ∧ (NotificationProxy.npRun NotificationProxy.npInit
      [NotificationProxy.NpEvent.start, NotificationProxy.NpEvent.stop,
        NotificationProxy.NpEvent.start]).readers = 2 := by
  refine ⟨rfl, rfl⟩

/-- C8 amended: a second `start_listening` while already listening returns
an error without spawning a new reader, and one successful
`start_listening` spawns exactly one reader; but `stop_listening` only
drops the channel handles and never terminates the reader task (the task
exits only when a socket read or a channel send fails), so the reader
count is unchanged across `stop_listening` and a subsequent
`start_listening` can leave two readers running. -/
theorem np_listener_state_transitions :
    ∀ s : NotificationProxy.NpState,
      (s.rx_some = true →
        NotificationProxy.startListening s = Except.error
          (IdeviceError.NotificationProxyError "Already listening for notifications"))
      ∧ (s.rx_some = false →
        NotificationProxy.startListening s =
          Except.ok { rx_some := true, tx_some := true, readers := s.readers + 1 })
      ∧ (NotificationProxy.stopListening s).rx_some = false
      ∧ (NotificationProxy.stopListening s).tx_some = false
      ∧ (NotificationProxy.stopListening s).readers = s.readers := by
  intro s
  refine ⟨fun h => ?_, fun h => ?_, rfl, rfl, rfl⟩
  · simp [NotificationProxy.startListening, h]
  · simp [NotificationProxy.startListening, h]

/-- C8 witness: the amended theorem applied to a state that is listening
with one live reader. -/
theorem np_listener_state_transitions_witness :
    NotificationProxy.startListening
        { rx_some := true, tx_some := true, readers := 1 } =
      Except.error
        (IdeviceError.NotificationProxyError "Already listening for notifications")
    ∧ (NotificationProxy.stopListening
        { rx_some := true, tx_some := true, readers := 1 }).readers = 1 :=
  ⟨(np_listener_state_transitions
      { rx_some := true, tx_some := true, readers := 1 }).1 rfl,
    (np_listener_state_transitions
      { rx_some := true, tx_some := true, readers := 1 }).2.2.2.2⟩

namespace WebInspector

/-- Command buffer of `get_applications`
(`src/idevice/src/web_inspector/mod.rs` lines 24-26): a zeroed 4-byte array
whose first byte is set to `b'L'` (76); all four bytes are written. -/
def getApplicationsCommand : List Nat := (List.replicate 4 0).set 0 76

/-- Command buffer of `connect_to_webview` (lines 62-64): a zeroed 4-byte
array whose first byte is set to `b'C'` (67); all four bytes are written. -/
def connectCommand : List Nat := (List.replicate 4 0).set 0 67

/-- All bytes `connect_to_webview` writes before reading its response: the
4-byte command buffer, the application id length as big-endian u32, then
the application id bytes. -/
def connectWrittenBytes (appId : List Nat) : List Nat :=
  connectCommand ++ u32be (appId.length % U32) ++ appId

/-- Response reading shared by both commands (lines 28-33 and 73-78): a
4-byte big-endian length, then exactly that many plist bytes; a short
stream fails. -/
def readResponse (stream : List Nat) : Option (List Nat) :=
  if 4 ≤ stream.length then
    if beToNat (stream.take 4) ≤ (stream.drop 4).length then
      some ((stream.drop 4).take (beToNat (stream.take 4)))
    else none
  else none

end WebInspector

/-- C9 counterexample: the command written for 'L' (and for 'C') is a
4-byte buffer, not the single byte the claim states. -/
theorem web_inspector_command_four_bytes :
    WebInspector.getApplicationsCommand.length = 4
    ∧ WebInspector.connectCommand.length = 4
    ∧ WebInspector.getApplicationsCommand ≠ [76]
    ∧ WebInspector.connectCommand ≠ [67] := by
  refine ⟨rfl, rfl, by decide, by decide⟩

/-- C9 amended: each Web Inspector command is sent as a 4-byte buffer whose
first byte is the ASCII command ('L' = 76 to list applications, 'C' = 67 to
connect to a webview) and whose remaining three bytes are zero; the
response in both cases is read as a 4-byte big-endian length-prefixed
plist, returning exactly the announced number of bytes. -/
theorem web_inspector_command_and_framing :
    WebInspector.getApplicationsCommand = [76, 0, 0, 0]
    ∧ WebInspector.connectCommand = [67, 0, 0, 0]
    ∧ ∀ body rest : List Nat, body.length < U32 →
        WebInspector.readResponse (u32be body.length ++ (body ++ rest)) =
          some body := by
  refine ⟨by decide, by decide, ?_⟩
  intro body rest h
  unfold WebInspector.readResponse
  rw [List.take_left' (u32be_length body.length),
    List.drop_left' (u32be_length body.length), beToNat_u32be h,
    if_pos (show (4 : Nat) ≤ (u32be body.length ++ (body ++ rest)).length by
      simp only [List.length_append, u32be_length]; omega),
    if_pos (show body.length ≤ (body ++ rest).length by
      simp only [List.length_append]; omega),
    List.take_left' (rfl : body.length = body.length)]

/-- C9 witness: the amended theorem applied to a 3-byte response body. -/
theorem web_inspector_command_and_framing_witness :
    WebInspector.readResponse
        (u32be ([1, 2, 3] : List Nat).length ++ ([1, 2, 3] ++ [])) =
      some [1, 2, 3] :=
  web_inspector_command_and_framing.2.2 [1, 2, 3] [] (by decide)

namespace FileRelay

/-- File Relay sources (`src/idevice/src/file_relay/mod.rs`,
`enum FileRelaySource`). -/
inductive FileRelaySource
  | AppleSupport | Network | VPN | Wifi | UserDatabases | CrashReporter
  | Tmp | SystemConfiguration | Keyboard | Logs | Lockdown
  | MobileInstallation | CrashReporterClearable | Diagnostics | All
deriving DecidableEq, Fintype, Repr

/-- Source names (`FileRelaySource::as_str`). -/
def FileRelaySource.asStr : FileRelaySource → String
  | .AppleSupport => "AppleSupport"
  | .Network => "Network"
  | .VPN => "VPN"
  | .Wifi => "Wifi"
  | .UserDatabases => "UserDatabases"
  | .CrashReporter => "CrashReporter"
  | .Tmp => "Tmp"
  | .SystemConfiguration => "SystemConfiguration"
  | .Keyboard => "Keyboard"
  | .Logs => "Logs"
  | .Lockdown => "Lockdown"
  | .MobileInstallation => "MobileInstallation"
  | .CrashReporterClearable => "CrashReporter-Clearable"
  | .Diagnostics => "Diagnostics"
  | .All => "All"

/-- The `Sources` array sent by `request_files` (lines 70-78): the input
slice is collected into a `HashSet` (dropping duplicates) and each distinct
source is mapped to its name. The set is modelled as the deduplicated list
in first-occurrence order; the `HashSet` iteration order is unspecified in
Rust, and the statements proved about this model are order-independent. -/
def sentSources (sources : List FileRelaySource) : List String :=
  sources.dedup.map FileRelaySource.asStr

theorem asStr_injective : Function.Injective FileRelaySource.asStr := by
  intro a b
  revert a b
  decide

end FileRelay

/-- C10: the `Sources` array sent by `request_files` contains each distinct
source name at most once, and duplicates in the input slice do not change
the names sent: the array for a slice equals the array for its
deduplication, so membership is identical. -/
theorem file_relay_sources_deduplicated :
    ∀ sources : List FileRelay.FileRelaySource,
      (FileRelay.sentSources sources).Nodup
      ∧ FileRelay.sentSources sources.dedup = FileRelay.sentSources sources
      ∧ ∀ s : String, s ∈ FileRelay.sentSources sources ↔
          s ∈ FileRelay.sentSources sources.dedup := by
  intro sources
  refine ⟨List.Nodup.map FileRelay.asStr_injective (List.nodup_dedup sources),
    ?_, ?_⟩
  · simp only [FileRelay.sentSources, List.dedup_idem]
  · intro s
    simp only [FileRelay.sentSources, List.dedup_idem]
